import Mathlib

/-!
# gkafka: a facade over a Kafka client library

Shallow embedding of `g/database/gkafka/gkafka.go`.

The wrapped libraries (`sarama`, `sarama-cluster`, `glog`) are not part of the
repository.  They are represented by a record `Lib` of answer functions: every
answer may depend on the whole history of library calls made so far, so a
statement quantified over `Lib` covers every deterministic behaviour of the
libraries, and (through the quantifier) every nondeterministic one.

The state threaded through the facade is the `Client` record of the source
together with the chronological list of library calls issued so far.
-/

namespace Gkafka

/-! ## Data model -/

/-- Go `[]byte`. -/
abbrev Bytes := List (Fin 256)

/-- Go `error` values produced by the wrapped libraries. -/
abbrev Err := String

/-- Identity of a session object handed out by the wrapped library. -/
abbrev Handle := Nat

/-- Width of Go `int`; the embedding fixes a 64-bit target. -/
def intBits : Nat := 64

/-- Two's-complement conversion of an integer to a signed type of `bits` bits
(Go conversions `int32(x)`, `int64(x)`, `int(x)`). -/
def wrapSigned (bits : Nat) (x : Int) : Int :=
  (x + 2 ^ (bits - 1)) % 2 ^ bits - 2 ^ (bits - 1)

/-- Range of a signed type of `bits` bits. -/
def inSigned (bits : Nat) (x : Int) : Prop :=
  -(2 ^ (bits - 1)) ≤ x ∧ x < 2 ^ (bits - 1)

instance (bits : Nat) (x : Int) : Decidable (inSigned bits x) := by
  unfold inSigned; infer_instance

/-- Constant `time.Second` of type `time.Duration` (nanoseconds). -/
def Second : Int := 1000000000

/-- Constant `sarama.OffsetNewest`. -/
def OffsetNewest : Int := -1

/-- Constant `sarama.OffsetOldest`. -/
def OffsetOldest : Int := -2

/-- The fields of `sarama.Config` that gkafka reads or writes; `rest` stands
for all the other tuning knobs, which gkafka never touches individually. -/
structure SaramaConfig where
  consumerReturnErrors : Bool
  consumerOffsetsInitial : Int
  consumerOffsetsCommitInterval : Int
  producerReturnErrors : Bool
  producerReturnSuccesses : Bool
  producerTimeout : Int
  rest : List (String × String)
  deriving DecidableEq, Repr

/-- The type `cluster.Config`: an embedded `sarama.Config`, the flag
`Group.Return.Notifications`, and the remaining group settings. -/
structure ClusterConfig where
  sarama : SaramaConfig
  groupReturnNotifications : Bool
  groupRest : List (String × String)
  deriving DecidableEq, Repr

/-- The type `Config` (gkafka.go:19-24); `sarama` is the embedded
`sarama.Config`. -/
structure Config where
  GroupId : String
  Servers : String
  Topics : String
  sarama : SaramaConfig
  deriving DecidableEq, Repr

/-- The type `Client` (gkafka.go:27-32).  A nil session field is `none`. -/
structure Client where
  Config : Config
  consumer : Option Handle
  syncProducer : Option Handle
  asyncProducer : Option Handle
  deriving DecidableEq, Repr

/-- The type `Message` (gkafka.go:35-41). -/
structure Message where
  Value : Bytes
  Key : Bytes
  Topic : String
  Partition : Int
  Offset : Int
  deriving DecidableEq, Repr

/-- The fields of `sarama.ProducerMessage` set by gkafka. -/
structure ProducerMessage where
  Topic : String
  Key : Bytes
  Value : Bytes
  Partition : Int
  Offset : Int
  deriving DecidableEq, Repr

/-- The fields of `sarama.ConsumerMessage` read by gkafka; `Partition` is an
`int32` and `Offset` an `int64`. -/
structure ConsumerMessage where
  Key : Bytes
  Value : Bytes
  Topic : String
  Partition : Int
  Offset : Int
  deriving DecidableEq, Repr

/-- A record as the library can deliver it: its numeric fields are in the range
of their Go types. -/
def ConsumerMessage.wellTyped (r : ConsumerMessage) : Prop :=
  inSigned 32 r.Partition ∧ inSigned 64 r.Offset

instance (r : ConsumerMessage) : Decidable r.wellTyped := by
  unfold ConsumerMessage.wellTyped; infer_instance

/-! ## The wrapped libraries -/

/-- Which of the two background drain loops a goroutine runs. -/
inductive DrainKind where
  | consumer
  | asyncProducer
  deriving DecidableEq, Repr

/-- The observable actions of the facade on its collaborators. -/
inductive Call where
  | newConsumer (addrs : List String) (groupID : String) (topics : List String)
      (config : ClusterConfig)
  | newSyncProducer (addrs : List String) (config : SaramaConfig)
  | newAsyncProducer (addrs : List String) (config : SaramaConfig)
  | consumerClose (c : Handle)
  | syncProducerClose (p : Handle)
  | asyncProducerClose (p : Handle)
  | messagesRecv (c : Handle)
  | markOffset (c : Handle) (msg : ConsumerMessage) (metadata : String)
  | sendMessage (p : Handle) (msg : ProducerMessage)
  | inputSend (p : Handle) (msg : ProducerMessage)
  | goDrain (kind : DrainKind) (h : Handle)
  deriving DecidableEq, Repr

/-- Result of a receive on a Go channel. -/
inductive RecvResult (α : Type) where
  | value (a : α)
  | closed
  | blocked
  deriving DecidableEq, Repr

/-- Result of a send on a Go channel. -/
inductive SendResult where
  | done
  | closed
  | blocked
  deriving DecidableEq, Repr

/-- Answers of the wrapped libraries.  The first argument of every answer
function is the list of calls made before the one being answered. -/
structure Lib where
  saramaNewConfig : SaramaConfig
  clusterNewConfig : ClusterConfig
  newConsumer : List Call → List String → String → List String → ClusterConfig →
    Except Err Handle
  newSyncProducer : List Call → List String → SaramaConfig → Except Err Handle
  newAsyncProducer : List Call → List String → SaramaConfig → Except Err Handle
  sendMessage : List Call → Handle → ProducerMessage → Option Err
  recvMessage : List Call → Handle → RecvResult ConsumerMessage
  inputSend : List Call → Handle → ProducerMessage → SendResult

/-- Go `strings.Split(s, ",")` on the characters of `s`: the pieces between
consecutive commas, so a string without a comma gives one piece. -/
def splitComma : List Char → List (List Char)
  | [] => [[]]
  | c :: cs =>
    if c = ',' then [] :: splitComma cs
    else
      match splitComma cs with
      | [] => [[c]]
      | piece :: pieces => (c :: piece) :: pieces

/-- Go `strings.Split(s, ",")`. -/
def Split (s : String) : List String :=
  (splitComma s.data).map String.mk

/-- How a call of the facade ends. -/
inductive Outcome (α : Type) where
  | ret (a : α)
  | panic
  | blocked
  deriving DecidableEq, Repr

/-- The client together with the history of library calls. -/
structure State where
  client : Client
  trace : List Call
  deriving DecidableEq, Repr

/-! ## The facade -/

/-- The function `New` (gkafka.go:45-67). -/
def New (lib : Lib) (config : Config) : Client :=
  let config : Config := { config with sarama := lib.saramaNewConfig }
  let config : Config := { config with sarama.consumerReturnErrors := true }
  let config : Config :=
    if config.sarama.consumerOffsetsInitial = 0 then
      { config with sarama.consumerOffsetsInitial := OffsetOldest }
    else config
  let config : Config :=
    if config.sarama.consumerOffsetsCommitInterval = 0 then
      { config with sarama.consumerOffsetsCommitInterval := 1 * Second }
    else config
  let config : Config := { config with sarama.producerReturnErrors := true }
  let config : Config := { config with sarama.producerReturnSuccesses := true }
  let config : Config :=
    if config.sarama.producerTimeout = 0 then
      { config with sarama.producerTimeout := 5 * Second }
    else config
  { Config := config, consumer := none, syncProducer := none, asyncProducer := none }

/-- The method `Close` (gkafka.go:70-80). -/
def Close (s : State) : State :=
  let tr := s.trace
  let tr :=
    match s.client.consumer with
    | some c => tr ++ [Call.consumerClose c]
    | none => tr
  let tr :=
    match s.client.syncProducer with
    | some p => tr ++ [Call.syncProducerClose p]
    | none => tr
  let tr :=
    match s.client.asyncProducer with
    | some p => tr ++ [Call.asyncProducerClose p]
    | none => tr
  { s with trace := tr }

/-- The function `messageToProducerMessage` (gkafka.go:167-175). -/
def messageToProducerMessage (message : Message) : ProducerMessage :=
  { Topic := message.Topic
    Key := message.Key
    Value := message.Value
    Partition := wrapSigned 32 message.Partition
    Offset := wrapSigned 64 message.Offset }

/-- The configuration built at the head of `Receive` (gkafka.go:84-86). -/
def receiveConfig (lib : Lib) (client : Client) : ClusterConfig :=
  let config := lib.clusterNewConfig
  let config := { config with sarama := client.Config.sarama }
  { config with groupReturnNotifications := true }

/-- The lazy creation of the consumer session in `Receive` (gkafka.go:87-105):
the session to use, or the creation error, and the state after the step. -/
def openConsumer (lib : Lib) (s : State) : Except Err Handle × State :=
  match s.client.consumer with
  | some c => (.ok c, s)
  | none =>
    let config := receiveConfig lib s.client
    let addrs := Split s.client.Config.Servers
    let topics := Split s.client.Config.Topics
    let s1 : State :=
      { s with trace := s.trace ++ [Call.newConsumer addrs s.client.Config.GroupId topics config] }
    match lib.newConsumer s.trace addrs s.client.Config.GroupId topics config with
    | .error err => (.error err, s1)
    | .ok c =>
      (.ok c, { client := { s.client with consumer := some c }
                trace := s1.trace ++ [Call.goDrain DrainKind.consumer c] })

/-- The method `Receive` (gkafka.go:83-116).  A receive on the closed message
channel yields a nil record, whose dereference panics; a receive that is never
served blocks. -/
def Receive (lib : Lib) (s : State) : Outcome (Except Err Message) × State :=
  match openConsumer lib s with
  | (.error err, s1) => (.ret (.error err), s1)
  | (.ok c, s1) =>
    let s2 : State := { s1 with trace := s1.trace ++ [Call.messagesRecv c] }
    match lib.recvMessage s1.trace c with
    | .blocked => (.blocked, s2)
    | .closed => (.panic, s2)
    | .value msg =>
      let s3 : State := { s2 with trace := s2.trace ++ [Call.markOffset c msg ""] }
      (.ret (.ok { Value := msg.Value
                   Key := msg.Key
                   Topic := msg.Topic
                   Partition := wrapSigned intBits msg.Partition
                   Offset := wrapSigned intBits msg.Offset }), s3)

/-- The lazy creation of the synchronous producer in `SyncSend`
(gkafka.go:120-126). -/
def openSyncProducer (lib : Lib) (s : State) : Except Err Handle × State :=
  match s.client.syncProducer with
  | some p => (.ok p, s)
  | none =>
    let addrs := Split s.client.Config.Servers
    let s1 : State :=
      { s with trace := s.trace ++ [Call.newSyncProducer addrs s.client.Config.sarama] }
    match lib.newSyncProducer s.trace addrs s.client.Config.sarama with
    | .error err => (.error err, s1)
    | .ok p => (.ok p, { s1 with client := { s.client with syncProducer := some p } })

/-- The producer message built for one topic (gkafka.go:128-129 and 159-160). -/
def topicMessage (message : Message) (topic : String) : ProducerMessage :=
  let msg := messageToProducerMessage message
  { msg with Topic := topic }

/-- The loop of `SyncSend` (gkafka.go:127-134): the returned error, if any, and
the history afterwards. -/
def syncSendLoop (lib : Lib) (p : Handle) (message : Message) :
    List String → List Call → Option Err × List Call
  | [], tr => (none, tr)
  | topic :: topics, tr =>
    let msg := topicMessage message topic
    match lib.sendMessage tr p msg with
    | some err => (some err, tr ++ [Call.sendMessage p msg])
    | none => syncSendLoop lib p message topics (tr ++ [Call.sendMessage p msg])

/-- The method `SyncSend` (gkafka.go:119-135); the result `none` is a nil
error. -/
def SyncSend (lib : Lib) (s : State) (message : Message) : Option Err × State :=
  match openSyncProducer lib s with
  | (.error err, s1) => (some err, s1)
  | (.ok p, s1) =>
    let r := syncSendLoop lib p message (Split s1.client.Config.Topics) s1.trace
    (r.1, { s1 with trace := r.2 })

/-- The lazy creation of the asynchronous producer in `AsyncSend`
(gkafka.go:139-156). -/
def openAsyncProducer (lib : Lib) (s : State) : Except Err Handle × State :=
  match s.client.asyncProducer with
  | some p => (.ok p, s)
  | none =>
    let addrs := Split s.client.Config.Servers
    let s1 : State :=
      { s with trace := s.trace ++ [Call.newAsyncProducer addrs s.client.Config.sarama] }
    match lib.newAsyncProducer s.trace addrs s.client.Config.sarama with
    | .error err => (.error err, s1)
    | .ok p =>
      (.ok p, { client := { s.client with asyncProducer := some p }
                trace := s1.trace ++ [Call.goDrain DrainKind.asyncProducer p] })

/-- The loop of `AsyncSend` (gkafka.go:158-162): how it ends and the history
afterwards.  A send on a closed channel panics; a send that is never accepted
blocks. -/
def asyncSendLoop (lib : Lib) (p : Handle) (message : Message) :
    List String → List Call → Outcome Unit × List Call
  | [], tr => (.ret (), tr)
  | topic :: topics, tr =>
    let msg := topicMessage message topic
    match lib.inputSend tr p msg with
    | .closed => (.panic, tr)
    | .blocked => (.blocked, tr)
    | .done => asyncSendLoop lib p message topics (tr ++ [Call.inputSend p msg])

/-- The method `AsyncSend` (gkafka.go:138-164); the result `none` is a nil
error. -/
def AsyncSend (lib : Lib) (s : State) (message : Message) :
    Outcome (Option Err) × State :=
  match openAsyncProducer lib s with
  | (.error err, s1) => (.ret (some err), s1)
  | (.ok p, s1) =>
    let r := asyncSendLoop lib p message (Split s1.client.Config.Topics) s1.trace
    match r.1 with
    | .ret () => (.ret none, { s1 with trace := r.2 })
    | .panic => (.panic, { s1 with trace := r.2 })
    | .blocked => (.blocked, { s1 with trace := r.2 })

/-! ## Sequences of calls -/

/-- One call of the public interface. -/
inductive Op where
  | receive
  | syncSend (message : Message)
  | asyncSend (message : Message)
  | close
  deriving DecidableEq, Repr

/-- The state after one call, however the call ends. -/
def step (lib : Lib) (s : State) : Op → State
  | .receive => (Receive lib s).2
  | .syncSend message => (SyncSend lib s message).2
  | .asyncSend message => (AsyncSend lib s message).2
  | .close => Close s

/-- The state after a sequence of calls on one client. -/
def run (lib : Lib) (s : State) (ops : List Op) : State :=
  ops.foldl (step lib) s

/-- Is the call an attempt to create a consumer session? -/
def Call.isNewConsumer : Call → Bool
  | .newConsumer _ _ _ _ => true
  | _ => false

/-- Is the call an attempt to create a synchronous producer? -/
def Call.isNewSyncProducer : Call → Bool
  | .newSyncProducer _ _ => true
  | _ => false

/-- Is the call an attempt to create an asynchronous producer? -/
def Call.isNewAsyncProducer : Call → Bool
  | .newAsyncProducer _ _ => true
  | _ => false

/-! ## The background drain loop -/

/-- A Go channel as its reader sees it: the values still to be delivered and
whether the channel has been closed. -/
structure Chan (α : Type) where
  pending : List α
  closed : Bool
  deriving DecidableEq, Repr

/-- A receive attempt inside a `select`: `none` when the case is not ready;
otherwise the value read (`none` being the zero value a closed, drained channel
yields) and the channel afterwards. -/
def Chan.recv {α : Type} (ch : Chan α) : Option (Option α × Chan α) :=
  match ch.pending with
  | v :: vs => some (some v, { ch with pending := vs })
  | [] => if ch.closed then some (none, ch) else none

/-- What a drain goroutine works on: the error channel, the notification (or
success) channel, and the arguments passed to `glog.Error` so far, a nil error
being `none`. -/
structure DrainState where
  errors : Chan Err
  signals : Chan Unit
  logged : List (Option Err)
  deriving DecidableEq, Repr

/-- How control leaves one pass through a loop body. -/
inductive Flow where
  | next
  | leave
  deriving DecidableEq, Repr

/-- One pass through the body of the drain loop (gkafka.go:97-101 and
148-152): the `select` with its two cases.  `pickErrors` is the runtime's
choice when both cases are ready; the result is `none` when neither is. -/
def drainBody (pickErrors : Bool) (d : DrainState) : Option (Flow × DrainState) :=
  match d.errors.recv, d.signals.recv with
  | none, none => none
  | some (err, errors), none =>
    some (.next, { d with errors := errors, logged := d.logged ++ [err] })
  | none, some (_, signals) => some (.next, { d with signals := signals })
  | some (err, errors), some (_, signals) =>
    if pickErrors then some (.next, { d with errors := errors, logged := d.logged ++ [err] })
    else some (.next, { d with signals := signals })

/-- What can happen while a drain goroutine lives: a pass through its loop, or
an action of the library on the two channels. -/
inductive Tick where
  | pass (pickErrors : Bool)
  | pushError (err : Err)
  | pushSignal
  | closeErrors
  | closeSignals
  deriving DecidableEq, Repr

/-- Where a drain goroutine stands. -/
inductive TaskStatus where
  | running
  | waiting
  | ended
  deriving DecidableEq, Repr

/-- One tick of the drain goroutine `for { select { ... } }` (gkafka.go:93-103
and 144-154). -/
def drainTick (st : TaskStatus × DrainState) : Tick → TaskStatus × DrainState
  | .pushError err =>
    (st.1, { st.2 with errors := { st.2.errors with pending := st.2.errors.pending ++ [err] } })
  | .pushSignal =>
    (st.1, { st.2 with signals := { st.2.signals with pending := st.2.signals.pending ++ [()] } })
  | .closeErrors => (st.1, { st.2 with errors := { st.2.errors with closed := true } })
  | .closeSignals => (st.1, { st.2 with signals := { st.2.signals with closed := true } })
  | .pass pickErrors =>
    match st.1 with
    | .ended => st
    | _ =>
      match drainBody pickErrors st.2 with
      | none => (.waiting, st.2)
      | some (.leave, d) => (.ended, d)
      | some (.next, d) => (.running, d)

/-- The drain goroutine under a sequence of ticks. -/
def drainRun (st : TaskStatus × DrainState) (ticks : List Tick) : TaskStatus × DrainState :=
  ticks.foldl drainTick st

/-! ## Concrete collaborators used in the examples -/

/-- The value of `sarama.NewConfig()` on the fields gkafka touches: the consumer
starts at the newest offset, commits every second, and the producer timeout is
ten seconds. -/
def saramaDefaults : SaramaConfig :=
  { consumerReturnErrors := false
    consumerOffsetsInitial := OffsetNewest
    consumerOffsetsCommitInterval := 1 * Second
    producerReturnErrors := true
    producerReturnSuccesses := false
    producerTimeout := 10 * Second
    rest := [] }

/-- A record used in the examples. -/
def sampleRecord : ConsumerMessage :=
  { Key := [107], Value := [120], Topic := "t1", Partition := 3, Offset := 42 }

/-- A library whose every call succeeds. -/
def goodLib : Lib :=
  { saramaNewConfig := saramaDefaults
    clusterNewConfig :=
      { sarama := saramaDefaults, groupReturnNotifications := false, groupRest := [] }
    newConsumer := fun _ _ _ _ _ => .ok 1
    newSyncProducer := fun _ _ _ => .ok 2
    newAsyncProducer := fun _ _ _ => .ok 3
    sendMessage := fun _ _ _ => none
    recvMessage := fun _ _ => .value sampleRecord
    inputSend := fun _ _ _ => .done }

/-- A library that cannot open any session. -/
def downLib : Lib :=
  { goodLib with
    newConsumer := fun _ _ _ _ _ => .error "no broker"
    newSyncProducer := fun _ _ _ => .error "no broker"
    newAsyncProducer := fun _ _ _ => .error "no broker" }

/-- A library that rejects every send to topic `t2`. -/
def rejectT2Lib : Lib :=
  { goodLib with
    sendMessage := fun _ _ msg => if msg.Topic = "t2" then some "rejected" else none }

/-- The configuration of the end-to-end scenarios. -/
def sampleConfig : Config :=
  { GroupId := "g1", Servers := "b1:9092,b2:9092", Topics := "t1,t2", sarama := saramaDefaults }

/-- The message of the end-to-end scenarios. -/
def sampleMessage : Message :=
  { Value := [120], Key := [107], Topic := "", Partition := 0, Offset := 0 }

/-- A freshly constructed client and an empty history. -/
def fresh (lib : Lib) (config : Config) : State :=
  { client := New lib config, trace := [] }

/-! ## Vocabulary of the statements -/

/-- The send issued for one topic of the fan-out of `SyncSend`. -/
def sendCall (p : Handle) (message : Message) (topic : String) : Call :=
  Call.sendMessage p (topicMessage message topic)

/-- The answer of the library to the send for the topic at position `k`
(counted from 0), the sends for the earlier topics having been issued after the
history `tr`. -/
def answerAt (lib : Lib) (p : Handle) (message : Message) (topics : List String)
    (tr : List Call) (k : Nat) : Option Err :=
  match topics.get? k with
  | none => none
  | some topic =>
    lib.sendMessage (tr ++ (topics.take k).map (sendCall p message)) p (topicMessage message topic)

/-- The enqueueing of the message for one topic of the fan-out of `AsyncSend`. -/
def enqueueCall (p : Handle) (message : Message) (topic : String) : Call :=
  Call.inputSend p (topicMessage message topic)

/-- The fate of the channel send for the topic at position `k` (counted from
0), the messages for the earlier topics having been enqueued after the history
`tr`. -/
def acceptAt (lib : Lib) (p : Handle) (message : Message) (topics : List String)
    (tr : List Call) (k : Nat) : SendResult :=
  match topics.get? k with
  | none => .done
  | some topic =>
    lib.inputSend (tr ++ (topics.take k).map (enqueueCall p message)) p (topicMessage message topic)

/-- The state `s2` keeps the sessions of `s`: every session handle present in
`s` is the same in `s2`, and the history of `s2` holds no more creation attempts
for that session type than the history of `s`. -/
def Keeps (s s2 : State) : Prop :=
  (∀ c, s.client.consumer = some c →
      s2.client.consumer = some c
        ∧ s2.trace.countP Call.isNewConsumer = s.trace.countP Call.isNewConsumer)
    ∧ (∀ p, s.client.syncProducer = some p →
      s2.client.syncProducer = some p
        ∧ s2.trace.countP Call.isNewSyncProducer = s.trace.countP Call.isNewSyncProducer)
    ∧ (∀ p, s.client.asyncProducer = some p →
      s2.client.asyncProducer = some p
        ∧ s2.trace.countP Call.isNewAsyncProducer = s.trace.countP Call.isNewAsyncProducer)

/-- A caller configuration whose embedded library settings are all left at
their zero values. -/
def unsetConfig : Config :=
  { GroupId := "g1", Servers := "b1:9092,b2:9092", Topics := "t1,t2"
    sarama :=
      { consumerReturnErrors := false
        consumerOffsetsInitial := 0
        consumerOffsetsCommitInterval := 0
        producerReturnErrors := false
        producerReturnSuccesses := false
        producerTimeout := 0
        rest := [] } }

/-- A caller configuration that sets the offset policy to oldest, the commit
interval to two seconds and the send timeout to three seconds. -/
def explicitConfig : Config :=
  { unsetConfig with
    sarama :=
      { unsetConfig.sarama with
        consumerOffsetsInitial := OffsetOldest
        consumerOffsetsCommitInterval := 2 * Second
        producerTimeout := 3 * Second } }

/-- A drain goroutine whose two channels are open and empty and which has
logged nothing. -/
def idleDrain : DrainState :=
  { errors := { pending := [], closed := false }
    signals := { pending := [], closed := false }
    logged := [] }

/-! ## Splitting on commas -/

theorem splitComma_ne_nil (cs : List Char) : splitComma cs ≠ [] := by
  induction cs with
  | nil => simp [splitComma]
  | cons c cs ih =>
    unfold splitComma
    split
    · simp
    · split <;> simp

theorem splitComma_length (cs : List Char) :
    (splitComma cs).length = cs.count ',' + 1 := by
  induction cs with
  | nil => simp [splitComma]
  | cons c cs ih =>
    unfold splitComma
    by_cases h : c = ','
    · subst h
      simp [ih]
    · have hne : (c == ',') = false := by simpa using h
      rw [if_neg h, List.count_cons, hne]
      cases hs : splitComma cs with
      | nil => exact absurd hs (splitComma_ne_nil cs)
      | cons piece pieces =>
        rw [hs] at ih
        simpa using ih

theorem splitComma_pieces_comma_free (cs : List Char) :
    ∀ piece ∈ splitComma cs, ',' ∉ piece := by
  induction cs with
  | nil => simp [splitComma]
  | cons c cs ih =>
    unfold splitComma
    by_cases h : c = ','
    · rw [if_pos h]
      intro piece hp
      rcases List.mem_cons.mp hp with rfl | hp
      · simp
      · exact ih piece hp
    · rw [if_neg h]
      cases hs : splitComma cs with
      | nil => exact absurd hs (splitComma_ne_nil cs)
      | cons first pieces =>
        rw [hs] at ih
        intro piece hp
        rcases List.mem_cons.mp hp with rfl | hp
        · have := ih first (by simp)
          simp only [List.mem_cons, not_or]
          exact ⟨fun hc => h hc.symm, this⟩
        · exact ih piece (by simp [hp])

theorem splitComma_joins_back (cs : List Char) :
    List.intercalate [','] (splitComma cs) = cs := by
  induction cs with
  | nil => simp [splitComma, List.intercalate]
  | cons c cs ih =>
    unfold splitComma
    by_cases h : c = ','
    · rw [if_pos h]
      cases hs : splitComma cs with
      | nil => exact absurd hs (splitComma_ne_nil cs)
      | cons first pieces =>
        rw [hs] at ih
        simp only [List.intercalate, List.intersperse, List.flatten] at ih ⊢
        simp [ih, h]
    · rw [if_neg h]
      cases hs : splitComma cs with
      | nil => exact absurd hs (splitComma_ne_nil cs)
      | cons first pieces =>
        rw [hs] at ih
        cases pieces with
        | nil =>
          simp only [List.intercalate, List.intersperse, List.flatten] at ih ⊢
          simp [← ih]
        | cons second others =>
          simp only [List.intercalate, List.intersperse, List.flatten] at ih ⊢
          simp [← ih]

theorem Split_examples :
    Split "t1,t2" = ["t1", "t2"] ∧ Split "" = [""] ∧ Split ",a," = ["", "a", ""]
      ∧ Split "b1:9092,b2:9092" = ["b1:9092", "b2:9092"] := by
  decide

theorem Split_length (s : String) : (Split s).length = s.data.count ',' + 1 := by
  simp [Split, splitComma_length]

/-! ## The fan-out loops -/

theorem answerAt_zero (lib : Lib) (p : Handle) (message : Message) (t : String)
    (ts : List String) (tr : List Call) :
    answerAt lib p message (t :: ts) tr 0 = lib.sendMessage tr p (topicMessage message t) := by
  simp [answerAt]

theorem answerAt_succ (lib : Lib) (p : Handle) (message : Message) (t : String)
    (ts : List String) (tr : List Call) (k : Nat) :
    answerAt lib p message (t :: ts) tr (k + 1)
      = answerAt lib p message ts (tr ++ [sendCall p message t]) k := by
  simp [answerAt, List.append_assoc]

theorem syncSendLoop_all_acked (lib : Lib) (p : Handle) (message : Message)
    (topics : List String) (tr : List Call)
    (hack : ∀ k, k < topics.length → answerAt lib p message topics tr k = none) :
    syncSendLoop lib p message topics tr = (none, tr ++ topics.map (sendCall p message)) := by
  induction topics generalizing tr with
  | nil => simp [syncSendLoop]
  | cons t ts ih =>
    have h0 := hack 0 (by simp)
    rw [answerAt_zero] at h0
    have hrest : ∀ k, k < ts.length →
        answerAt lib p message ts (tr ++ [sendCall p message t]) k = none := by
      intro k hk
      rw [← answerAt_succ]
      exact hack (k + 1) (by simpa using hk)
    have := ih (tr ++ [sendCall p message t]) hrest
    simp only [syncSendLoop, h0]
    simpa [sendCall, List.append_assoc] using this

theorem syncSendLoop_first_error (lib : Lib) (p : Handle) (message : Message)
    (topics : List String) (tr : List Call) (k : Nat) (e : Err)
    (hk : k < topics.length)
    (hfail : answerAt lib p message topics tr k = some e)
    (hbefore : ∀ j, j < k → answerAt lib p message topics tr j = none) :
    syncSendLoop lib p message topics tr
      = (some e, tr ++ (topics.take (k + 1)).map (sendCall p message)) := by
  induction topics generalizing tr k with
  | nil => simp at hk
  | cons t ts ih =>
    cases k with
    | zero =>
      rw [answerAt_zero] at hfail
      simp [syncSendLoop, hfail, sendCall]
    | succ k =>
      have h0 := hbefore 0 (by omega)
      rw [answerAt_zero] at h0
      rw [answerAt_succ] at hfail
      have hb : ∀ j, j < k → answerAt lib p message ts (tr ++ [sendCall p message t]) j = none := by
        intro j hj
        rw [← answerAt_succ]
        exact hbefore (j + 1) (by omega)
      have := ih (tr ++ [sendCall p message t]) k (by simpa using hk) hfail hb
      simp only [syncSendLoop, h0]
      simpa [sendCall, List.append_assoc] using this

theorem syncSendLoop_none_acked (lib : Lib) (p : Handle) (message : Message)
    (topics : List String) (tr : List Call)
    (hnone : (syncSendLoop lib p message topics tr).1 = none) :
    ∀ k, k < topics.length → answerAt lib p message topics tr k = none := by
  induction topics generalizing tr with
  | nil => intro k hk; simp at hk
  | cons t ts ih =>
    intro k hk
    cases h0 : lib.sendMessage tr p (topicMessage message t) with
    | some e => simp [syncSendLoop, h0] at hnone
    | none =>
      simp only [syncSendLoop, h0] at hnone
      cases k with
      | zero => rw [answerAt_zero]; exact h0
      | succ k =>
        rw [answerAt_succ]
        exact ih _ hnone k (by simpa using hk)

theorem openSyncProducer_ok (lib : Lib) (s s1 : State) (p : Handle)
    (hopen : openSyncProducer lib s = (.ok p, s1)) :
    s1.client.Config = s.client.Config ∧ s1.client.syncProducer = some p := by
  unfold openSyncProducer at hopen
  cases hs : s.client.syncProducer with
  | some q =>
    simp only [hs] at hopen
    cases hopen
    exact ⟨rfl, hs⟩
  | none =>
    simp only [hs] at hopen
    cases hn : lib.newSyncProducer s.trace (Split s.client.Config.Servers) s.client.Config.sarama with
    | error e => simp [hn] at hopen
    | ok q =>
      simp only [hn] at hopen
      cases hopen
      exact ⟨rfl, rfl⟩

theorem topicMessage_topic_irrelevant (message : Message) (topic t : String) :
    topicMessage { message with Topic := topic } t = topicMessage message t := by
  simp [topicMessage, messageToProducerMessage]

theorem syncSendLoop_topic_irrelevant (lib : Lib) (p : Handle) (message : Message)
    (topic : String) (topics : List String) (tr : List Call) :
    syncSendLoop lib p { message with Topic := topic } topics tr
      = syncSendLoop lib p message topics tr := by
  induction topics generalizing tr with
  | nil => simp [syncSendLoop]
  | cons t ts ih =>
    simp only [syncSendLoop, topicMessage_topic_irrelevant, ih]

/-- C1. When the synchronous-producer session is present or is opened, and the
library acknowledges each send of the fan-out, `SyncSend` returns a nil error
and adds to the history exactly one send per entry of `Config.Topics` split on
commas, in list order, the send for an entry carrying that entry as its topic
and the key and value of the message; the number of entries is the number of
commas plus one; and the call does not depend on the `Topic` field of the
message. -/
theorem SyncSend_fans_out (lib : Lib) (s s1 : State) (p : Handle) (message : Message)
    (hopen : openSyncProducer lib s = (.ok p, s1))
    (hack : ∀ k, k < (Split s.client.Config.Topics).length →
      answerAt lib p message (Split s.client.Config.Topics) s1.trace k = none) :
    SyncSend lib s message
        = (none, { s1 with trace := (s1.trace ++ (Split s.client.Config.Topics).map
            (fun topic => Call.sendMessage p
              { Topic := topic, Key := message.Key, Value := message.Value,
                Partition := wrapSigned 32 message.Partition,
                Offset := wrapSigned 64 message.Offset })) })
      ∧ (Split s.client.Config.Topics).length = s.client.Config.Topics.data.count ',' + 1
      ∧ ∀ topic, SyncSend lib s { message with Topic := topic } = SyncSend lib s message := by
  have hcfg := (openSyncProducer_ok lib s s1 p hopen).1
  refine ⟨?_, Split_length _, ?_⟩
  · unfold SyncSend
    rw [hopen]
    simp only [hcfg]
    rw [syncSendLoop_all_acked lib p message _ _ hack]
    rfl
  · intro topic
    unfold SyncSend
    cases h : openSyncProducer lib s with
    | mk r s2 =>
      cases r with
      | error e => rfl
      | ok q => simp only [syncSendLoop_topic_irrelevant]

/-- C2. With the synchronous-producer session present or opened, `SyncSend`
returns a nil error exactly when the library acknowledges the send for every
entry of the topic list; and when the send at position `k` (from 0) is the
first one the library answers with an error, `SyncSend` returns that error and
the history has grown by the sends for positions `0..k` and by nothing else. -/
theorem SyncSend_first_error (lib : Lib) (s s1 : State) (p : Handle) (message : Message)
    (hopen : openSyncProducer lib s = (.ok p, s1)) :
    ((SyncSend lib s message).1 = none ↔
        ∀ k, k < (Split s.client.Config.Topics).length →
          answerAt lib p message (Split s.client.Config.Topics) s1.trace k = none)
      ∧ ∀ k e, k < (Split s.client.Config.Topics).length →
          answerAt lib p message (Split s.client.Config.Topics) s1.trace k = some e →
          (∀ j, j < k →
            answerAt lib p message (Split s.client.Config.Topics) s1.trace j = none) →
          SyncSend lib s message
            = (some e, { s1 with trace := (s1.trace ++
                ((Split s.client.Config.Topics).take (k + 1)).map (sendCall p message)) }) := by
  have hcfg := (openSyncProducer_ok lib s s1 p hopen).1
  refine ⟨⟨?_, ?_⟩, ?_⟩
  · intro h
    unfold SyncSend at h
    rw [hopen] at h
    simp only [hcfg] at h
    exact syncSendLoop_none_acked lib p message _ _ h
  · intro h
    unfold SyncSend
    rw [hopen]
    simp only [hcfg]
    rw [syncSendLoop_all_acked lib p message _ _ h]
  · intro k e hk hfail hbefore
    unfold SyncSend
    rw [hopen]
    simp only [hcfg]
    rw [syncSendLoop_first_error lib p message _ _ k e hk hfail hbefore]

/-- Witness of C1: topics `t1,t2` and a message with key `k` and payload `x`
give two sends, to `t1` and then to `t2`, both with that key and payload. -/
theorem SyncSend_fans_out_witness :
    (SyncSend goodLib (fresh goodLib sampleConfig) sampleMessage).1 = none
      ∧ (SyncSend goodLib (fresh goodLib sampleConfig) sampleMessage).2.trace
        = [Call.newSyncProducer ["b1:9092", "b2:9092"] (New goodLib sampleConfig).Config.sarama,
           Call.sendMessage 2 { Topic := "t1", Key := [107], Value := [120], Partition := 0, Offset := 0 },
           Call.sendMessage 2 { Topic := "t2", Key := [107], Value := [120], Partition := 0, Offset := 0 }] := by
  have h := (SyncSend_fans_out goodLib (fresh goodLib sampleConfig)
    (openSyncProducer goodLib (fresh goodLib sampleConfig)).2 2 sampleMessage rfl
    (by intro k _; unfold answerAt; split <;> rfl)).1
  rw [h]
  exact ⟨rfl, by decide⟩

/-- Witness of C2: with topics `t1,t2` and a library rejecting `t2`, the send at
position 1 is the first to fail; its error is returned after two sends. -/
theorem SyncSend_first_error_witness :
    SyncSend rejectT2Lib (fresh rejectT2Lib sampleConfig) sampleMessage
      = (some "rejected",
          { (openSyncProducer rejectT2Lib (fresh rejectT2Lib sampleConfig)).2 with
            trace := ((openSyncProducer rejectT2Lib (fresh rejectT2Lib sampleConfig)).2.trace ++
              ((Split (fresh rejectT2Lib sampleConfig).client.Config.Topics).take (1 + 1)).map
                (sendCall 2 sampleMessage)) }) :=
  (SyncSend_first_error rejectT2Lib (fresh rejectT2Lib sampleConfig)
    (openSyncProducer rejectT2Lib (fresh rejectT2Lib sampleConfig)).2 2 sampleMessage rfl).2
    1 "rejected" (by decide) (by decide) (by decide)

/-! ## Asynchronous sends -/

theorem acceptAt_zero (lib : Lib) (p : Handle) (message : Message) (t : String)
    (ts : List String) (tr : List Call) :
    acceptAt lib p message (t :: ts) tr 0 = lib.inputSend tr p (topicMessage message t) := by
  simp [acceptAt]

theorem acceptAt_succ (lib : Lib) (p : Handle) (message : Message) (t : String)
    (ts : List String) (tr : List Call) (k : Nat) :
    acceptAt lib p message (t :: ts) tr (k + 1)
      = acceptAt lib p message ts (tr ++ [enqueueCall p message t]) k := by
  simp [acceptAt, List.append_assoc]

theorem asyncSendLoop_all_accepted (lib : Lib) (p : Handle) (message : Message)
    (topics : List String) (tr : List Call)
    (hacc : ∀ k, k < topics.length → acceptAt lib p message topics tr k = .done) :
    asyncSendLoop lib p message topics tr
      = (.ret (), tr ++ topics.map (enqueueCall p message)) := by
  induction topics generalizing tr with
  | nil => simp [asyncSendLoop]
  | cons t ts ih =>
    have h0 := hacc 0 (by simp)
    rw [acceptAt_zero] at h0
    have hrest : ∀ k, k < ts.length →
        acceptAt lib p message ts (tr ++ [enqueueCall p message t]) k = .done := by
      intro k hk
      rw [← acceptAt_succ]
      exact hacc (k + 1) (by simpa using hk)
    have := ih (tr ++ [enqueueCall p message t]) hrest
    simp only [asyncSendLoop, h0]
    simpa [enqueueCall, List.append_assoc] using this

theorem openAsyncProducer_ok (lib : Lib) (s s1 : State) (p : Handle)
    (hopen : openAsyncProducer lib s = (.ok p, s1)) :
    s1.client.Config = s.client.Config ∧ s1.client.asyncProducer = some p := by
  unfold openAsyncProducer at hopen
  cases hs : s.client.asyncProducer with
  | some q =>
    simp only [hs] at hopen
    cases hopen
    exact ⟨rfl, hs⟩
  | none =>
    simp only [hs] at hopen
    cases hn : lib.newAsyncProducer s.trace (Split s.client.Config.Servers)
        s.client.Config.sarama with
    | error e => simp [hn] at hopen
    | ok q =>
      simp only [hn] at hopen
      cases hopen
      exact ⟨rfl, rfl⟩

theorem openAsyncProducer_error (lib : Lib) (s s1 : State) (e : Err)
    (hopen : openAsyncProducer lib s = (.error e, s1)) :
    s.client.asyncProducer = none
      ∧ lib.newAsyncProducer s.trace (Split s.client.Config.Servers) s.client.Config.sarama
        = .error e := by
  unfold openAsyncProducer at hopen
  cases hs : s.client.asyncProducer with
  | some q => simp [hs] at hopen
  | none =>
    simp only [hs] at hopen
    cases hn : lib.newAsyncProducer s.trace (Split s.client.Config.Servers)
        s.client.Config.sarama with
    | error e2 =>
      simp only [hn] at hopen
      cases hopen
      exact ⟨rfl, rfl⟩
    | ok q => simp [hn] at hopen

/-- C5. When the asynchronous-producer session is present or is opened, and the
input queue of the producer accepts each message of the fan-out, `AsyncSend`
returns a nil error and adds to the history exactly one enqueued producer
message per entry of `Config.Topics` split on commas, in list order, each with
that entry as its topic and the key and value of the message; the number of
entries is the number of commas plus one.  Whenever `AsyncSend` returns an
error at all, the session was absent and the error is the one returned by the
creation of the session. -/
theorem AsyncSend_enqueues (lib : Lib) (s : State) (message : Message) :
    (∀ p s1, openAsyncProducer lib s = (.ok p, s1) →
        (∀ k, k < (Split s.client.Config.Topics).length →
          acceptAt lib p message (Split s.client.Config.Topics) s1.trace k = .done) →
        AsyncSend lib s message
            = (.ret none, { s1 with trace := (s1.trace ++ (Split s.client.Config.Topics).map
                (fun topic => Call.inputSend p
                  { Topic := topic, Key := message.Key, Value := message.Value,
                    Partition := wrapSigned 32 message.Partition,
                    Offset := wrapSigned 64 message.Offset })) })
          ∧ (Split s.client.Config.Topics).length = s.client.Config.Topics.data.count ',' + 1)
      ∧ ∀ e s2, AsyncSend lib s message = (.ret (some e), s2) →
          s.client.asyncProducer = none
            ∧ lib.newAsyncProducer s.trace (Split s.client.Config.Servers) s.client.Config.sarama
              = .error e := by
  refine ⟨?_, ?_⟩
  · intro p s1 hopen hacc
    have hcfg := (openAsyncProducer_ok lib s s1 p hopen).1
    refine ⟨?_, Split_length _⟩
    unfold AsyncSend
    rw [hopen]
    simp only [hcfg]
    rw [asyncSendLoop_all_accepted lib p message _ _ hacc]
    rfl
  · intro e s2 h
    unfold AsyncSend at h
    cases ho : openAsyncProducer lib s with
    | mk r s3 =>
      rw [ho] at h
      cases r with
      | error e2 =>
        simp only [Prod.mk.injEq, Outcome.ret.injEq, Option.some.injEq] at h
        rw [← h.1]
        exact openAsyncProducer_error lib s s3 e2 ho
      | ok q =>
        simp only at h
        split at h <;> simp at h

/-- Witness of C5: topics `t1,t2` give two enqueued messages, for `t1` and then
for `t2`. -/
theorem AsyncSend_enqueues_witness :
    (AsyncSend goodLib (fresh goodLib sampleConfig) sampleMessage).1 = .ret none
      ∧ (AsyncSend goodLib (fresh goodLib sampleConfig) sampleMessage).2.trace
        = [Call.newAsyncProducer ["b1:9092", "b2:9092"] (New goodLib sampleConfig).Config.sarama,
           Call.goDrain DrainKind.asyncProducer 3,
           Call.inputSend 3 { Topic := "t1", Key := [107], Value := [120], Partition := 0, Offset := 0 },
           Call.inputSend 3 { Topic := "t2", Key := [107], Value := [120], Partition := 0, Offset := 0 }]
      ∧ (AsyncSend downLib (fresh downLib sampleConfig) sampleMessage).1 = .ret (some "no broker")
      ∧ (fresh downLib sampleConfig).client.asyncProducer = none := by
  have h := ((AsyncSend_enqueues goodLib (fresh goodLib sampleConfig) sampleMessage).1 3
    (openAsyncProducer goodLib (fresh goodLib sampleConfig)).2 rfl
    (by intro k _; unfold acceptAt; split <;> rfl)).1
  have h2 := (AsyncSend_enqueues downLib (fresh downLib sampleConfig) sampleMessage).2
    "no broker" (AsyncSend downLib (fresh downLib sampleConfig) sampleMessage).2 rfl
  rw [h]
  exact ⟨rfl, by decide, rfl, h2.1⟩

/-! ## How the history grows -/

theorem syncSendLoop_extends (lib : Lib) (p : Handle) (message : Message)
    (topics : List String) (tr : List Call) :
    ∃ later, (syncSendLoop lib p message topics tr).2 = tr ++ later := by
  induction topics generalizing tr with
  | nil => exact ⟨[], by simp [syncSendLoop]⟩
  | cons t ts ih =>
    cases h0 : lib.sendMessage tr p (topicMessage message t) with
    | some e => exact ⟨[Call.sendMessage p (topicMessage message t)], by simp [syncSendLoop, h0]⟩
    | none =>
      obtain ⟨later, hl⟩ := ih (tr ++ [Call.sendMessage p (topicMessage message t)])
      exact ⟨Call.sendMessage p (topicMessage message t) :: later, by
        simp [syncSendLoop, h0, hl]⟩

theorem asyncSendLoop_extends (lib : Lib) (p : Handle) (message : Message)
    (topics : List String) (tr : List Call) :
    ∃ later, (asyncSendLoop lib p message topics tr).2 = tr ++ later := by
  induction topics generalizing tr with
  | nil => exact ⟨[], by simp [asyncSendLoop]⟩
  | cons t ts ih =>
    cases h0 : lib.inputSend tr p (topicMessage message t) with
    | closed => exact ⟨[], by simp [asyncSendLoop, h0]⟩
    | blocked => exact ⟨[], by simp [asyncSendLoop, h0]⟩
    | done =>
      obtain ⟨later, hl⟩ := ih (tr ++ [Call.inputSend p (topicMessage message t)])
      exact ⟨Call.inputSend p (topicMessage message t) :: later, by
        simp [asyncSendLoop, h0, hl]⟩

theorem Receive_absent_starts_with_creation (lib : Lib) (s : State)
    (habsent : s.client.consumer = none) :
    ∃ later, (Receive lib s).2.trace
      = s.trace ++ Call.newConsumer (Split s.client.Config.Servers) s.client.Config.GroupId
          (Split s.client.Config.Topics) (receiveConfig lib s.client) :: later := by
  unfold Receive openConsumer
  simp only [habsent]
  cases lib.newConsumer s.trace (Split s.client.Config.Servers) s.client.Config.GroupId
      (Split s.client.Config.Topics) (receiveConfig lib s.client) with
  | error e => exact ⟨[], by simp⟩
  | ok c =>
    simp only
    split
    · exact ⟨[Call.goDrain DrainKind.consumer c, Call.messagesRecv c], by simp⟩
    · exact ⟨[Call.goDrain DrainKind.consumer c, Call.messagesRecv c], by simp⟩
    · rename_i msg _
      exact ⟨[Call.goDrain DrainKind.consumer c, Call.messagesRecv c,
        Call.markOffset c msg ""], by simp⟩

theorem SyncSend_absent_starts_with_creation (lib : Lib) (s : State) (message : Message)
    (habsent : s.client.syncProducer = none) :
    ∃ later, (SyncSend lib s message).2.trace
      = s.trace ++ Call.newSyncProducer (Split s.client.Config.Servers)
          s.client.Config.sarama :: later := by
  unfold SyncSend openSyncProducer
  simp only [habsent]
  cases lib.newSyncProducer s.trace (Split s.client.Config.Servers) s.client.Config.sarama with
  | error e => exact ⟨[], by simp⟩
  | ok p =>
    simp only
    obtain ⟨later, hl⟩ := syncSendLoop_extends lib p message (Split s.client.Config.Topics)
      (s.trace ++ [Call.newSyncProducer (Split s.client.Config.Servers) s.client.Config.sarama])
    exact ⟨later, by rw [hl]; simp⟩

theorem AsyncSend_absent_starts_with_creation (lib : Lib) (s : State) (message : Message)
    (habsent : s.client.asyncProducer = none) :
    ∃ later, (AsyncSend lib s message).2.trace
      = s.trace ++ Call.newAsyncProducer (Split s.client.Config.Servers)
          s.client.Config.sarama :: later := by
  unfold AsyncSend openAsyncProducer
  simp only [habsent]
  cases lib.newAsyncProducer s.trace (Split s.client.Config.Servers) s.client.Config.sarama with
  | error e => exact ⟨[], by simp⟩
  | ok p =>
    simp only
    obtain ⟨later, hl⟩ := asyncSendLoop_extends lib p message (Split s.client.Config.Topics)
      (s.trace ++ [Call.newAsyncProducer (Split s.client.Config.Servers) s.client.Config.sarama]
        ++ [Call.goDrain DrainKind.asyncProducer p])
    split <;> exact ⟨Call.goDrain DrainKind.asyncProducer p :: later, by rw [hl]; simp⟩

/-! ## Failed session creation -/

/-- C6. For each of `Receive`, `SyncSend` and `AsyncSend` on a client whose
session is absent: when the creation of the session fails, the call returns
exactly the creation error, the client is unchanged (the session handle is
still absent), the history has grown by the creation attempt and by nothing
else (nothing is sent, enqueued or received), and the same call made next
starts with a creation attempt again. -/
theorem failed_open_leaves_absent (lib : Lib) (s : State) (message : Message) (e : Err) :
    (s.client.consumer = none →
        lib.newConsumer s.trace (Split s.client.Config.Servers) s.client.Config.GroupId
          (Split s.client.Config.Topics) (receiveConfig lib s.client) = .error e →
        Receive lib s
            = (.ret (.error e),
               { s with trace := s.trace ++ [Call.newConsumer (Split s.client.Config.Servers)
                  s.client.Config.GroupId (Split s.client.Config.Topics)
                  (receiveConfig lib s.client)] })
          ∧ (Receive lib s).2.client = s.client
          ∧ ∃ later, (Receive lib (Receive lib s).2).2.trace
              = (Receive lib s).2.trace ++ Call.newConsumer (Split s.client.Config.Servers)
                  s.client.Config.GroupId (Split s.client.Config.Topics)
                  (receiveConfig lib s.client) :: later)
      ∧ (s.client.syncProducer = none →
        lib.newSyncProducer s.trace (Split s.client.Config.Servers) s.client.Config.sarama
          = .error e →
        SyncSend lib s message
            = (some e,
               { s with trace := s.trace ++ [Call.newSyncProducer (Split s.client.Config.Servers)
                  s.client.Config.sarama] })
          ∧ (SyncSend lib s message).2.client = s.client
          ∧ ∃ later, (SyncSend lib (SyncSend lib s message).2 message).2.trace
              = (SyncSend lib s message).2.trace ++ Call.newSyncProducer
                  (Split s.client.Config.Servers) s.client.Config.sarama :: later)
      ∧ (s.client.asyncProducer = none →
        lib.newAsyncProducer s.trace (Split s.client.Config.Servers) s.client.Config.sarama
          = .error e →
        AsyncSend lib s message
            = (.ret (some e),
               { s with trace := s.trace ++ [Call.newAsyncProducer (Split s.client.Config.Servers)
                  s.client.Config.sarama] })
          ∧ (AsyncSend lib s message).2.client = s.client
          ∧ ∃ later, (AsyncSend lib (AsyncSend lib s message).2 message).2.trace
              = (AsyncSend lib s message).2.trace ++ Call.newAsyncProducer
                  (Split s.client.Config.Servers) s.client.Config.sarama :: later) := by
  refine ⟨?_, ?_, ?_⟩
  · intro habsent hfail
    have hr : Receive lib s
        = (.ret (.error e),
           { s with trace := s.trace ++ [Call.newConsumer (Split s.client.Config.Servers)
              s.client.Config.GroupId (Split s.client.Config.Topics)
              (receiveConfig lib s.client)] }) := by
      unfold Receive openConsumer
      simp only [habsent, hfail]
    refine ⟨hr, by rw [hr], ?_⟩
    rw [hr]
    exact Receive_absent_starts_with_creation lib _ habsent
  · intro habsent hfail
    have hr : SyncSend lib s message
        = (some e,
           { s with trace := s.trace ++ [Call.newSyncProducer (Split s.client.Config.Servers)
              s.client.Config.sarama] }) := by
      unfold SyncSend openSyncProducer
      simp only [habsent, hfail]
    refine ⟨hr, by rw [hr], ?_⟩
    rw [hr]
    exact SyncSend_absent_starts_with_creation lib _ message habsent
  · intro habsent hfail
    have hr : AsyncSend lib s message
        = (.ret (some e),
           { s with trace := s.trace ++ [Call.newAsyncProducer (Split s.client.Config.Servers)
              s.client.Config.sarama] }) := by
      unfold AsyncSend openAsyncProducer
      simp only [habsent, hfail]
    refine ⟨hr, by rw [hr], ?_⟩
    rw [hr]
    exact AsyncSend_absent_starts_with_creation lib _ message habsent

/-- Witness of C6: with a library that cannot open sessions, each of the three
calls on a fresh client returns the creation error and leaves only the creation
attempt in the history. -/
theorem failed_open_leaves_absent_witness :
    Receive downLib (fresh downLib sampleConfig)
        = (.ret (.error "no broker"),
           { fresh downLib sampleConfig with
             trace := (fresh downLib sampleConfig).trace ++
              [Call.newConsumer (Split (fresh downLib sampleConfig).client.Config.Servers)
                (fresh downLib sampleConfig).client.Config.GroupId
                (Split (fresh downLib sampleConfig).client.Config.Topics)
                (receiveConfig downLib (fresh downLib sampleConfig).client)] })
      ∧ (SyncSend downLib (fresh downLib sampleConfig) sampleMessage).2.client
        = (fresh downLib sampleConfig).client
      ∧ (AsyncSend downLib (fresh downLib sampleConfig) sampleMessage).2.client
        = (fresh downLib sampleConfig).client :=
  ⟨((failed_open_leaves_absent downLib (fresh downLib sampleConfig) sampleMessage
      "no broker").1 rfl rfl).1,
   ((failed_open_leaves_absent downLib (fresh downLib sampleConfig) sampleMessage
      "no broker").2.1 rfl rfl).2.1,
   ((failed_open_leaves_absent downLib (fresh downLib sampleConfig) sampleMessage
      "no broker").2.2 rfl rfl).2.1⟩

/-! ## Receiving -/

theorem wrapSigned_of_inSigned (bits wide : Nat) (x : Int) (hbits : 0 < bits)
    (hwide : bits ≤ wide) (hx : inSigned bits x) : wrapSigned wide x = x := by
  unfold inSigned at hx
  unfold wrapSigned
  have hpow : (2 : Int) ^ (bits - 1) ≤ 2 ^ (wide - 1) :=
    pow_le_pow_right₀ (by norm_num) (by omega)
  have hdouble : (2 : Int) ^ wide = 2 * 2 ^ (wide - 1) := by
    have : wide = (wide - 1) + 1 := by omega
    conv_lhs => rw [this]
    rw [pow_succ]
    ring
  rw [Int.emod_eq_of_lt (by omega) (by omega)]
  omega

theorem openConsumer_ok (lib : Lib) (s s1 : State) (c : Handle)
    (hopen : openConsumer lib s = (.ok c, s1)) :
    s1.client.Config = s.client.Config ∧ s1.client.consumer = some c := by
  unfold openConsumer at hopen
  cases hs : s.client.consumer with
  | some q =>
    simp only [hs] at hopen
    cases hopen
    exact ⟨rfl, hs⟩
  | none =>
    simp only [hs] at hopen
    cases hn : lib.newConsumer s.trace (Split s.client.Config.Servers) s.client.Config.GroupId
        (Split s.client.Config.Topics) (receiveConfig lib s.client) with
    | error e => simp [hn] at hopen
    | ok q =>
      simp only [hn] at hopen
      cases hopen
      exact ⟨rfl, rfl⟩

/-- C7. When the consumer session is present or is opened and delivers a
record, `Receive` returns, with a nil error, the message whose value, key,
topic, partition and offset are those of the record, and the history has grown
by the receive and then by the marking of the record's offset with empty
metadata. -/
theorem Receive_returns_record (lib : Lib) (s s1 : State) (c : Handle) (r : ConsumerMessage)
    (hopen : openConsumer lib s = (.ok c, s1))
    (hrecv : lib.recvMessage s1.trace c = .value r)
    (htyped : r.wellTyped) :
    Receive lib s
      = (.ret (.ok { Value := r.Value, Key := r.Key, Topic := r.Topic,
                     Partition := r.Partition, Offset := r.Offset }),
         { s1 with trace := s1.trace ++ [Call.messagesRecv c, Call.markOffset c r ""] }) := by
  unfold Receive
  rw [hopen]
  simp only [hrecv]
  rw [wrapSigned_of_inSigned 32 intBits r.Partition (by norm_num) (by decide) htyped.1,
    wrapSigned_of_inSigned 64 intBits r.Offset (by norm_num) (by decide) htyped.2]
  simp

/-- Witness of C7: a fresh client subscribed to `t1` receives the record
delivered for `t1`. -/
theorem Receive_returns_record_witness :
    Receive goodLib (fresh goodLib sampleConfig)
      = (.ret (.ok { Value := [120], Key := [107], Topic := "t1", Partition := 3, Offset := 42 }),
         { (openConsumer goodLib (fresh goodLib sampleConfig)).2 with
           trace := (openConsumer goodLib (fresh goodLib sampleConfig)).2.trace ++
            [Call.messagesRecv 1, Call.markOffset 1 sampleRecord ""] }) :=
  Receive_returns_record goodLib (fresh goodLib sampleConfig)
    (openConsumer goodLib (fresh goodLib sampleConfig)).2 1 sampleRecord rfl rfl (by decide)

/-! ## Closing -/

/-- C9. `Close` adds to the history one close call for each session handle that
is present, in the order consumer, synchronous producer, asynchronous producer,
and nothing for a handle that is absent; it changes nothing else.  On the
client returned by `New`, whatever the configuration, `Close` leaves client and
history as they are. -/
theorem Close_releases_present_sessions (s : State) :
    Close s
        = { s with trace := s.trace
              ++ s.client.consumer.toList.map Call.consumerClose
              ++ s.client.syncProducer.toList.map Call.syncProducerClose
              ++ s.client.asyncProducer.toList.map Call.asyncProducerClose }
      ∧ ∀ (lib : Lib) (config : Config) (tr : List Call),
          Close { client := New lib config, trace := tr }
            = { client := New lib config, trace := tr } := by
  refine ⟨?_, ?_⟩
  · unfold Close
    cases s.client.consumer <;> cases s.client.syncProducer <;>
      cases s.client.asyncProducer <;> simp
  · intro lib config tr
    rfl

/-! ## Construction -/

/-- C3. Evaluation of `New` on a configuration whose offset policy, commit
interval and send timeout are unset, with the library defaults of
`sarama.NewConfig()`: the three reporting flags are enabled and the commit
interval is one second, but the offset policy is newest, not oldest, and the
send timeout is ten seconds, not five.  For every library, the resolved
settings are those of `sarama.NewConfig()` with the flags enabled and with the
three defaults applied only where `sarama.NewConfig()` itself holds a zero. -/
theorem New_unset_fields_resolve_to_library_values :
    (New goodLib unsetConfig).Config.sarama
        = { consumerReturnErrors := true
            consumerOffsetsInitial := OffsetNewest
            consumerOffsetsCommitInterval := 1 * Second
            producerReturnErrors := true
            producerReturnSuccesses := true
            producerTimeout := 10 * Second
            rest := [] }
      ∧ (New goodLib unsetConfig).Config.sarama.consumerOffsetsInitial ≠ OffsetOldest
      ∧ (New goodLib unsetConfig).Config.sarama.producerTimeout ≠ 5 * Second
      ∧ ∀ (lib : Lib) (config : Config),
          (New lib config).Config.sarama
            = { consumerReturnErrors := true
                consumerOffsetsInitial :=
                  if lib.saramaNewConfig.consumerOffsetsInitial = 0 then OffsetOldest
                  else lib.saramaNewConfig.consumerOffsetsInitial
                consumerOffsetsCommitInterval :=
                  if lib.saramaNewConfig.consumerOffsetsCommitInterval = 0 then 1 * Second
                  else lib.saramaNewConfig.consumerOffsetsCommitInterval
                producerReturnErrors := true
                producerReturnSuccesses := true
                producerTimeout :=
                  if lib.saramaNewConfig.producerTimeout = 0 then 5 * Second
                  else lib.saramaNewConfig.producerTimeout
                rest := lib.saramaNewConfig.rest } := by
  refine ⟨by decide, by decide, by decide, ?_⟩
  intro lib config
  unfold New
  by_cases h1 : lib.saramaNewConfig.consumerOffsetsInitial = 0 <;>
    by_cases h2 : lib.saramaNewConfig.consumerOffsetsCommitInterval = 0 <;>
    by_cases h3 : lib.saramaNewConfig.producerTimeout = 0 <;>
    simp [h1, h2, h3]

/-- C4. Evaluation of `New` on a configuration that sets the offset policy to
oldest, the commit interval to two seconds and the send timeout to three
seconds: the returned client holds newest, one second and ten seconds.  For
every library, the client returned by `New` does not depend on the embedded
library settings the caller passed. -/
theorem New_discards_caller_settings :
    (New goodLib explicitConfig).Config.sarama.consumerOffsetsInitial = OffsetNewest
      ∧ explicitConfig.sarama.consumerOffsetsInitial = OffsetOldest
      ∧ (New goodLib explicitConfig).Config.sarama.consumerOffsetsCommitInterval = 1 * Second
      ∧ explicitConfig.sarama.consumerOffsetsCommitInterval = 2 * Second
      ∧ (New goodLib explicitConfig).Config.sarama.producerTimeout = 10 * Second
      ∧ explicitConfig.sarama.producerTimeout = 3 * Second
      ∧ ∀ (lib : Lib) (config : Config) (settings : SaramaConfig),
          New lib { config with sarama := settings } = New lib config := by
  refine ⟨by decide, by decide, by decide, by decide, by decide, by decide, ?_⟩
  intro lib config settings
  rfl

/-! ## Sessions are created once -/

theorem Keeps.refl (s : State) : Keeps s s :=
  ⟨fun _ h => ⟨h, rfl⟩, fun _ h => ⟨h, rfl⟩, fun _ h => ⟨h, rfl⟩⟩

theorem Keeps.trans {s s2 s3 : State} (h12 : Keeps s s2) (h23 : Keeps s2 s3) : Keeps s s3 := by
  refine ⟨fun c hc => ?_, fun p hp => ?_, fun p hp => ?_⟩
  · have h := h12.1 c hc
    have h2 := h23.1 c h.1
    exact ⟨h2.1, h2.2.trans h.2⟩
  · have h := h12.2.1 p hp
    have h2 := h23.2.1 p h.1
    exact ⟨h2.1, h2.2.trans h.2⟩
  · have h := h12.2.2 p hp
    have h2 := h23.2.2 p h.1
    exact ⟨h2.1, h2.2.trans h.2⟩

theorem syncSendLoop_countP (q : Call → Bool) (hq : ∀ p msg, q (Call.sendMessage p msg) = false)
    (lib : Lib) (p : Handle) (message : Message) (topics : List String) (tr : List Call) :
    (syncSendLoop lib p message topics tr).2.countP q = tr.countP q := by
  induction topics generalizing tr with
  | nil => simp [syncSendLoop]
  | cons t ts ih =>
    cases h0 : lib.sendMessage tr p (topicMessage message t) with
    | some e => simp [syncSendLoop, h0, hq]
    | none => simp [syncSendLoop, h0, ih, hq]

theorem asyncSendLoop_countP (q : Call → Bool) (hq : ∀ p msg, q (Call.inputSend p msg) = false)
    (lib : Lib) (p : Handle) (message : Message) (topics : List String) (tr : List Call) :
    (asyncSendLoop lib p message topics tr).2.countP q = tr.countP q := by
  induction topics generalizing tr with
  | nil => simp [asyncSendLoop]
  | cons t ts ih =>
    cases h0 : lib.inputSend tr p (topicMessage message t) with
    | closed => simp [asyncSendLoop, h0]
    | blocked => simp [asyncSendLoop, h0]
    | done => simp [asyncSendLoop, h0, ih, hq]

theorem Close_keeps (s : State) : Keeps s (Close s) := by
  unfold Keeps Close
  cases s.client.consumer <;> cases s.client.syncProducer <;>
    cases s.client.asyncProducer <;>
    simp [Call.isNewConsumer, Call.isNewSyncProducer, Call.isNewAsyncProducer]

theorem Receive_keeps (lib : Lib) (s : State) : Keeps s (Receive lib s).2 := by
  unfold Keeps Receive openConsumer
  cases hc : s.client.consumer with
  | some c =>
    simp only
    cases lib.recvMessage s.trace c <;>
      simp [hc, Call.isNewConsumer, Call.isNewSyncProducer, Call.isNewAsyncProducer]
  | none =>
    simp only
    cases lib.newConsumer s.trace (Split s.client.Config.Servers) s.client.Config.GroupId
        (Split s.client.Config.Topics) (receiveConfig lib s.client) with
    | error e => simp [Call.isNewConsumer, Call.isNewSyncProducer, Call.isNewAsyncProducer]
    | ok c =>
      simp only
      split <;> simp [Call.isNewConsumer, Call.isNewSyncProducer, Call.isNewAsyncProducer]

theorem SyncSend_keeps (lib : Lib) (s : State) (message : Message) :
    Keeps s (SyncSend lib s message).2 := by
  unfold Keeps SyncSend openSyncProducer
  cases hp : s.client.syncProducer with
  | some p =>
    simp [hp, syncSendLoop_countP, Call.isNewConsumer, Call.isNewSyncProducer,
      Call.isNewAsyncProducer]
  | none =>
    simp only
    cases lib.newSyncProducer s.trace (Split s.client.Config.Servers) s.client.Config.sarama with
    | error e => simp [Call.isNewConsumer, Call.isNewSyncProducer, Call.isNewAsyncProducer]
    | ok p =>
      simp [syncSendLoop_countP, Call.isNewConsumer, Call.isNewSyncProducer,
        Call.isNewAsyncProducer]

theorem AsyncSend_keeps (lib : Lib) (s : State) (message : Message) :
    Keeps s (AsyncSend lib s message).2 := by
  unfold Keeps AsyncSend openAsyncProducer
  cases hp : s.client.asyncProducer with
  | some p =>
    simp only
    split <;>
      simp [hp, asyncSendLoop_countP, Call.isNewConsumer, Call.isNewSyncProducer,
        Call.isNewAsyncProducer]
  | none =>
    simp only
    cases lib.newAsyncProducer s.trace (Split s.client.Config.Servers) s.client.Config.sarama with
    | error e => simp [Call.isNewConsumer, Call.isNewSyncProducer, Call.isNewAsyncProducer]
    | ok p =>
      simp only
      split <;>
        simp [asyncSendLoop_countP, Call.isNewConsumer, Call.isNewSyncProducer,
          Call.isNewAsyncProducer]

theorem step_keeps (lib : Lib) (s : State) (op : Op) : Keeps s (step lib s op) := by
  cases op with
  | receive => exact Receive_keeps lib s
  | syncSend message => exact SyncSend_keeps lib s message
  | asyncSend message => exact AsyncSend_keeps lib s message
  | close => exact Close_keeps s

theorem run_keeps (lib : Lib) (s : State) (ops : List Op) : Keeps s (run lib s ops) := by
  induction ops generalizing s with
  | nil => exact Keeps.refl s
  | cons op ops ih =>
    exact Keeps.trans (step_keeps lib s op) (ih (step lib s op))

theorem Receive_creates_consumer (lib : Lib) (s : State) (c : Handle)
    (habsent : s.client.consumer = none)
    (hnew : lib.newConsumer s.trace (Split s.client.Config.Servers) s.client.Config.GroupId
      (Split s.client.Config.Topics) (receiveConfig lib s.client) = .ok c) :
    (Receive lib s).2.client.consumer = some c
      ∧ (Receive lib s).2.trace.countP Call.isNewConsumer
        = s.trace.countP Call.isNewConsumer + 1 := by
  unfold Receive openConsumer
  simp only [habsent, hnew]
  split <;> simp [Call.isNewConsumer]

theorem SyncSend_creates_producer (lib : Lib) (s : State) (message : Message) (p : Handle)
    (habsent : s.client.syncProducer = none)
    (hnew : lib.newSyncProducer s.trace (Split s.client.Config.Servers) s.client.Config.sarama
      = .ok p) :
    (SyncSend lib s message).2.client.syncProducer = some p
      ∧ (SyncSend lib s message).2.trace.countP Call.isNewSyncProducer
        = s.trace.countP Call.isNewSyncProducer + 1 := by
  unfold SyncSend openSyncProducer
  simp only [habsent, hnew]
  simp [syncSendLoop_countP, Call.isNewSyncProducer]

theorem AsyncSend_creates_producer (lib : Lib) (s : State) (message : Message) (p : Handle)
    (habsent : s.client.asyncProducer = none)
    (hnew : lib.newAsyncProducer s.trace (Split s.client.Config.Servers) s.client.Config.sarama
      = .ok p) :
    (AsyncSend lib s message).2.client.asyncProducer = some p
      ∧ (AsyncSend lib s message).2.trace.countP Call.isNewAsyncProducer
        = s.trace.countP Call.isNewAsyncProducer + 1 := by
  unfold AsyncSend openAsyncProducer
  simp only [habsent, hnew]
  split <;> simp [asyncSendLoop_countP, Call.isNewAsyncProducer]

/-- C8. For every sequence of `Receive`, `SyncSend`, `AsyncSend` and `Close`
calls on one client and each of the three session types: a session handle that
is present at the start is the same at the end, and the sequence adds no
attempt to create a session of that type to the history.  And for each of the
three session types, when the first call that needs the session (`Receive`,
`SyncSend`, `AsyncSend` respectively) creates it, that call followed by any
sequence of calls (further calls of the same kind, `Close` included) ends with
the created handle in place and leaves exactly one more creation attempt of
that type in the history than there was before. -/
theorem sessions_created_once (lib : Lib) (s : State) (ops : List Op) :
    (∀ c, s.client.consumer = some c →
        (run lib s ops).client.consumer = some c
          ∧ (run lib s ops).trace.countP Call.isNewConsumer
            = s.trace.countP Call.isNewConsumer)
      ∧ (∀ p, s.client.syncProducer = some p →
        (run lib s ops).client.syncProducer = some p
          ∧ (run lib s ops).trace.countP Call.isNewSyncProducer
            = s.trace.countP Call.isNewSyncProducer)
      ∧ (∀ p, s.client.asyncProducer = some p →
        (run lib s ops).client.asyncProducer = some p
          ∧ (run lib s ops).trace.countP Call.isNewAsyncProducer
            = s.trace.countP Call.isNewAsyncProducer)
      ∧ (∀ c, s.client.consumer = none →
        lib.newConsumer s.trace (Split s.client.Config.Servers) s.client.Config.GroupId
          (Split s.client.Config.Topics) (receiveConfig lib s.client) = .ok c →
        (run lib s (Op.receive :: ops)).client.consumer = some c
          ∧ (run lib s (Op.receive :: ops)).trace.countP Call.isNewConsumer
            = s.trace.countP Call.isNewConsumer + 1)
      ∧ (∀ p message, s.client.syncProducer = none →
        lib.newSyncProducer s.trace (Split s.client.Config.Servers) s.client.Config.sarama
          = .ok p →
        (run lib s (Op.syncSend message :: ops)).client.syncProducer = some p
          ∧ (run lib s (Op.syncSend message :: ops)).trace.countP Call.isNewSyncProducer
            = s.trace.countP Call.isNewSyncProducer + 1)
      ∧ (∀ p message, s.client.asyncProducer = none →
        lib.newAsyncProducer s.trace (Split s.client.Config.Servers) s.client.Config.sarama
          = .ok p →
        (run lib s (Op.asyncSend message :: ops)).client.asyncProducer = some p
          ∧ (run lib s (Op.asyncSend message :: ops)).trace.countP Call.isNewAsyncProducer
            = s.trace.countP Call.isNewAsyncProducer + 1) := by
  have h := run_keeps lib s ops
  refine ⟨h.1, h.2.1, h.2.2, ?_, ?_, ?_⟩
  · intro c habsent hnew
    have hfirst := Receive_creates_consumer lib s c habsent hnew
    have hrest := (run_keeps lib (Receive lib s).2 ops).1 c hfirst.1
    exact ⟨hrest.1, hrest.2.trans hfirst.2⟩
  · intro p message habsent hnew
    have hfirst := SyncSend_creates_producer lib s message p habsent hnew
    have hrest := (run_keeps lib (SyncSend lib s message).2 ops).2.1 p hfirst.1
    exact ⟨hrest.1, hrest.2.trans hfirst.2⟩
  · intro p message habsent hnew
    have hfirst := AsyncSend_creates_producer lib s message p habsent hnew
    have hrest := (run_keeps lib (AsyncSend lib s message).2 ops).2.2 p hfirst.1
    exact ⟨hrest.1, hrest.2.trans hfirst.2⟩

/-- Witness of C8: on a fresh client, two `Receive` calls leave one creation
attempt in the history and the consumer handle survives a `Close`; likewise two
`SyncSend` calls, and two `AsyncSend` calls around a `Close`, leave one creation
attempt of their producer and the created handle in place. -/
theorem sessions_created_once_witness :
    (run goodLib (fresh goodLib sampleConfig) [Op.receive, Op.receive]).trace.countP
        Call.isNewConsumer = 1
      ∧ (run goodLib (fresh goodLib sampleConfig)
          [Op.receive, Op.close, Op.receive]).client.consumer = some 1
      ∧ (run goodLib (fresh goodLib sampleConfig)
          [Op.receive, Op.close, Op.receive]).trace.countP Call.isNewConsumer = 1
      ∧ (run goodLib (fresh goodLib sampleConfig)
          [Op.syncSend sampleMessage, Op.syncSend sampleMessage]).client.syncProducer = some 2
      ∧ (run goodLib (fresh goodLib sampleConfig)
          [Op.syncSend sampleMessage, Op.syncSend sampleMessage]).trace.countP
            Call.isNewSyncProducer = 1
      ∧ (run goodLib (fresh goodLib sampleConfig)
          [Op.asyncSend sampleMessage, Op.close, Op.asyncSend sampleMessage]).client.asyncProducer
            = some 3
      ∧ (run goodLib (fresh goodLib sampleConfig)
          [Op.asyncSend sampleMessage, Op.close, Op.asyncSend sampleMessage]).trace.countP
            Call.isNewAsyncProducer = 1 :=
  ⟨((sessions_created_once goodLib (fresh goodLib sampleConfig) [Op.receive]).2.2.2.1
      1 rfl rfl).2,
   ((sessions_created_once goodLib (fresh goodLib sampleConfig)
      [Op.close, Op.receive]).2.2.2.1 1 rfl rfl).1,
   ((sessions_created_once goodLib (fresh goodLib sampleConfig)
      [Op.close, Op.receive]).2.2.2.1 1 rfl rfl).2,
   ((sessions_created_once goodLib (fresh goodLib sampleConfig)
      [Op.syncSend sampleMessage]).2.2.2.2.1 2 sampleMessage rfl rfl).1,
   ((sessions_created_once goodLib (fresh goodLib sampleConfig)
      [Op.syncSend sampleMessage]).2.2.2.2.1 2 sampleMessage rfl rfl).2,
   ((sessions_created_once goodLib (fresh goodLib sampleConfig)
      [Op.close, Op.asyncSend sampleMessage]).2.2.2.2.2 3 sampleMessage rfl rfl).1,
   ((sessions_created_once goodLib (fresh goodLib sampleConfig)
      [Op.close, Op.asyncSend sampleMessage]).2.2.2.2.2 3 sampleMessage rfl rfl).2⟩

/-! ## The drain goroutine -/

theorem drainBody_never_leaves (pickErrors : Bool) (d d2 : DrainState) :
    drainBody pickErrors d ≠ some (Flow.leave, d2) := by
  unfold drainBody
  split
  · simp
  · simp
  · simp
  · split <;> simp

theorem drainTick_not_ended (st : TaskStatus × DrainState) (t : Tick)
    (hst : st.1 ≠ TaskStatus.ended) : (drainTick st t).1 ≠ TaskStatus.ended := by
  cases t with
  | pushError err => exact hst
  | pushSignal => exact hst
  | closeErrors => exact hst
  | closeSignals => exact hst
  | pass pickErrors =>
    have hbody : (match drainBody pickErrors st.2 with
        | none => (TaskStatus.waiting, st.2)
        | some (Flow.leave, d) => (TaskStatus.ended, d)
        | some (Flow.next, d) => (TaskStatus.running, d)).1 ≠ TaskStatus.ended := by
      cases hb : drainBody pickErrors st.2 with
      | none => simp
      | some r =>
        obtain ⟨flow, d⟩ := r
        cases flow with
        | next => simp
        | leave => exact absurd hb (drainBody_never_leaves pickErrors st.2 d)
    simp only [drainTick]
    cases hs : st.1 with
    | ended => exact absurd hs hst
    | running => exact hbody
    | waiting => exact hbody

theorem drainRun_not_ended (st : TaskStatus × DrainState) (ticks : List Tick)
    (hst : st.1 ≠ TaskStatus.ended) : (drainRun st ticks).1 ≠ TaskStatus.ended := by
  induction ticks generalizing st with
  | nil => exact hst
  | cons t ts ih => exact ih (drainTick st t) (drainTick_not_ended st t hst)

/-- C10, as stated, fails: starting from a running drain goroutine with open,
empty channels, the channels are closed and three passes through the loop
follow; the goroutine is still running, having passed two nil errors to the
logger; and no continuation whatsoever after the close ends the goroutine. -/
theorem drain_outlives_closed_channels :
    drainRun (TaskStatus.running, idleDrain)
        [Tick.closeErrors, Tick.closeSignals, Tick.pass true, Tick.pass false, Tick.pass true]
        = (TaskStatus.running,
           { errors := { pending := [], closed := true }
             signals := { pending := [], closed := true }
             logged := [none, none] })
      ∧ ¬ ∃ ticks, (drainRun (TaskStatus.running, idleDrain)
            (Tick.closeErrors :: Tick.closeSignals :: ticks)).1 = TaskStatus.ended := by
  refine ⟨by decide, ?_⟩
  rintro ⟨ticks, h⟩
  exact drainRun_not_ended (TaskStatus.running, idleDrain)
    (Tick.closeErrors :: Tick.closeSignals :: ticks)
    (by decide) h

/-- C10, amended.  The drain goroutine of a consumer session and of an
asynchronous-producer session never ends, whatever the library does to its two
channels: while both channels are open and empty a pass through the loop waits,
and once both channels are closed and drained every pass completes at once,
reading a zero value (a nil error handed to the logger, or a discarded
signal), and the loop goes on. -/
theorem drain_never_ends (d : DrainState) (ticks : List Tick) :
    (drainRun (TaskStatus.running, d) ticks).1 ≠ TaskStatus.ended
      ∧ (d.errors = { pending := [], closed := false } →
          d.signals = { pending := [], closed := false } →
          ∀ pickErrors, drainTick (TaskStatus.running, d) (Tick.pass pickErrors)
            = (TaskStatus.waiting, d))
      ∧ (d.errors = { pending := [], closed := true } →
          d.signals = { pending := [], closed := true } →
          ∀ pickErrors, drainTick (TaskStatus.running, d) (Tick.pass pickErrors)
            = (TaskStatus.running,
               if pickErrors then { d with logged := d.logged ++ [none] } else d)) := by
  refine ⟨drainRun_not_ended _ ticks (by simp), ?_, ?_⟩
  · intro he hs pickErrors
    simp [drainTick, drainBody, Chan.recv, he, hs]
  · intro he hs pickErrors
    cases pickErrors <;> simp [drainTick, drainBody, Chan.recv, he, hs]
    cases d
    simp_all

/-- Witness of the amended C10: with both channels open and empty a pass waits;
after the close a pass that picks the error channel logs a nil error and the
goroutine runs on. -/
theorem drain_never_ends_witness :
    drainTick (TaskStatus.running, idleDrain) (Tick.pass true) = (TaskStatus.waiting, idleDrain)
      ∧ drainTick (TaskStatus.running,
            { errors := { pending := [], closed := true }
              signals := { pending := [], closed := true }
              logged := [] }) (Tick.pass true)
          = (TaskStatus.running,
            { errors := { pending := [], closed := true }
              signals := { pending := [], closed := true }
              logged := [none] }) :=
  ⟨(drain_never_ends idleDrain []).2.1 rfl rfl true,
   (drain_never_ends
      { errors := { pending := [], closed := true }
        signals := { pending := [], closed := true }
        logged := [] } []).2.2 rfl rfl true⟩

end Gkafka
